import Mathlib

/-!
Shallow embedding of the Potsdam booking scraper (`src/main.py`).

Datetimes are modelled as `Nat` counts of minutes since 0001-01-01 00:00 in
the proleptic Gregorian calendar (Python's `date.toordinal` day 1 is
0001-01-01, so the day index of a minute count `t` is `t / 1440` and the
Python ordinal is `t / 1440 + 1`).  All text is modelled over ASCII; the
scraped marker words and format strings are ASCII, so the ASCII-only
`lower`/`strip` used here agrees with Python's on every relevant input.
-/

/-! ## Calendar arithmetic (proleptic Gregorian, as in Python `datetime`) -/

/-- Gregorian leap-year test, as in Python `calendar.isleap`. -/
def isLeap (y : Nat) : Bool :=
  y % 4 == 0 && (y % 100 != 0 || y % 400 == 0)

/-- Number of days in month `m` (1–12) of year `y`. -/
def daysInMonth (y m : Nat) : Nat :=
  match m with
  | 1 => 31 | 2 => if isLeap y then 29 else 28 | 3 => 31 | 4 => 30
  | 5 => 31 | 6 => 30 | 7 => 31 | 8 => 31
  | 9 => 30 | 10 => 31 | 11 => 30 | 12 => 31
  | _ => 0

/-- Days in all years before year `y` (`y ≥ 1`), as in Python
`datetime._days_before_year`. -/
def daysBeforeYear (y : Nat) : Nat :=
  365 * (y - 1) + (y - 1) / 4 + (y - 1) / 400 - (y - 1) / 100

/-- Days in year `y` before the first of month `m`. -/
def daysBeforeMonth (y m : Nat) : Nat :=
  (List.range (m - 1)).foldl (fun acc i => acc + daysInMonth y (i + 1)) 0

/-- Python `date(y, m, d).toordinal()`: 0001-01-01 is ordinal 1. -/
def toOrdinal (y m d : Nat) : Nat :=
  daysBeforeYear y + daysBeforeMonth y m + d

/-- Year containing day index `n` (day index = ordinal - 1), by the standard
400/100/4/1-year cycle decomposition used by Python `datetime._ord2ymd`. -/
def yearOfDayIndex (n : Nat) : Nat :=
  let n400 := n / 146097
  let r1 := n % 146097
  let n100 := min (r1 / 36524) 3
  let r2 := r1 - n100 * 36524
  let n4 := r2 / 1461
  let r3 := r2 % 1461
  let n1 := min (r3 / 365) 3
  400 * n400 + 100 * n100 + 4 * n4 + n1 + 1

/-- Walk the months of year `y` to locate the day-of-year `doy` (0-based);
returns (month, day-of-month). `fuel` bounds the walk at 12 months. -/
def monthDayGo (y : Nat) : Nat → Nat → Nat → Nat × Nat
  | 0, m, doy => (m, doy + 1)
  | fuel + 1, m, doy =>
    if doy < daysInMonth y m then (m, doy + 1)
    else monthDayGo y fuel (m + 1) (doy - daysInMonth y m)

/-- Day index to (year, month, day), inverse of `toOrdinal` on valid dates. -/
def ord2ymd (n : Nat) : Nat × Nat × Nat :=
  let y := yearOfDayIndex n
  let doy := n - daysBeforeYear y
  let md := monthDayGo y 11 1 doy
  (y, md.1, md.2)

/-! ## Europe/Berlin timezone model (`_utc` in src/main.py)

`pytz.timezone("Europe/Berlin")` applies the EU daylight-saving rule (in
force since 1996, covering every date this scraper handles): CEST (UTC+2)
from the last Sunday of March 01:00 UTC to the last Sunday of October
01:00 UTC, CET (UTC+1) otherwise. -/

/-- Day index of the last Sunday of month `m` of year `y`.
Day index 0 (0001-01-01) is a Monday, so Sunday is weekday residue 6. -/
def lastSundayIndex (y m : Nat) : Nat :=
  let i := toOrdinal y m 31 - 1
  i - ((i % 7 + 1) % 7)

/-- UTC minute at which DST starts in year `y` (last Sunday of March, 01:00 UTC). -/
def dstStartUtc (y : Nat) : Nat := lastSundayIndex y 3 * 1440 + 60

/-- UTC minute at which DST ends in year `y` (last Sunday of October, 01:00 UTC). -/
def dstEndUtc (y : Nat) : Nat := lastSundayIndex y 10 * 1440 + 60

/-- Whether UTC minute `u` falls in the Europe/Berlin DST (CEST) period. -/
def isDst (u : Nat) : Bool :=
  let y := yearOfDayIndex (u / 1440)
  dstStartUtc y ≤ u && u < dstEndUtc y

/-- Offset (in minutes) of Europe/Berlin ahead of UTC at UTC minute `u`. -/
def berlinOffset (u : Nat) : Nat := if isDst u then 120 else 60

/-- Convert a (naive) UTC minute count to the Europe/Berlin wall clock:
the re-localization step of the round-trip property in the spec. -/
def berlinFromUtc (u : Nat) : Nat := u + berlinOffset u

/-- `_utc` from src/main.py: strip any timezone tag, `localize` the naive
wall-clock value in Europe/Berlin with pytz's default `is_dst=False`,
convert to UTC and strip the tag again.  pytz attaches the CEST offset
exactly when both candidate instants `t-120` and `t-60` lie in the DST
period; for ambiguous (fall-back) and nonexistent (spring-forward) wall
times it attaches the CET offset, which is what `is_dst=False` selects. -/
def _utc (inputTime : Nat) : Nat :=
  if isDst (inputTime - 120) && isDst (inputTime - 60) then inputTime - 120
  else inputTime - 60

/-! ## String helpers (ASCII models of the Python `str` operations used) -/

/-- ASCII lower-casing of one character, as Python `str.lower` acts on ASCII. -/
def asciiLowerChar (c : Char) : Char :=
  if 65 ≤ c.toNat && c.toNat ≤ 90 then Char.ofNat (c.toNat + 32) else c

/-- ASCII model of Python `str.lower`. -/
def pyLower (s : String) : String := ⟨s.data.map asciiLowerChar⟩

/-- Python `str` whitespace (ASCII part): space, \t, \n, \r, \x0b, \x0c. -/
def isPyWs (c : Char) : Bool :=
  c == ' ' || c == '\t' || c == '\n' || c == '\r' || c.toNat == 11 || c.toNat == 12

/-- Model of Python `str.strip()`. -/
def pyStrip (s : String) : String :=
  ⟨((s.data.dropWhile isPyWs).reverse.dropWhile isPyWs).reverse⟩

/-- Does `l` start with `p`? -/
def listStartsWith : List Char → List Char → Bool
  | _, [] => true
  | [], _ :: _ => false
  | c :: cs, p :: ps => c == p && listStartsWith cs ps

/-- Model of Python's substring test `pat in hay`. -/
def listContainsSub (pat : List Char) : List Char → Bool
  | [] => listStartsWith [] pat
  | c :: t => listStartsWith (c :: t) pat || listContainsSub pat t

/-- `pat in hay` on strings. -/
def strContainsSub (hay pat : String) : Bool := listContainsSub pat.data hay.data

/-- Decimal digits of `n`, zero-padded on the left to width `w`. -/
def padNum (w n : Nat) : String :=
  let s := toString n
  ⟨List.replicate (w - s.length) '0' ++ s.data⟩

/-- `strftime("%Y-%m-%d")` of the date with day index `d`. -/
def fmtYmd (d : Nat) : String :=
  let t := ord2ymd d
  padNum 4 t.1 ++ "-" ++ padNum 2 t.2.1 ++ "-" ++ padNum 2 t.2.2

/-- `strftime("%d.%m.%Y")` of the date with day index `d`. -/
def fmtDmy (d : Nat) : String :=
  let t := ord2ymd d
  padNum 2 t.2.2 ++ "." ++ padNum 2 t.2.1 ++ "." ++ padNum 4 t.1

/-- Python `datetime.isoformat()` of a whole-minute naive datetime:
seconds are always printed, zero microseconds are omitted. -/
def isoformat (t : Nat) : String :=
  let d := ord2ymd (t / 1440)
  padNum 4 d.1 ++ "-" ++ padNum 2 d.2.1 ++ "-" ++ padNum 2 d.2.2 ++ "T" ++
    padNum 2 (t % 1440 / 60) ++ ":" ++ padNum 2 (t % 60) ++ ":00"

/-! ## `datetime.strptime(s, "%d.%m.%Y %H:%M Uhr")`

CPython `_strptime` compiles the format to the regex
`(3[0-1]|[1-2]\d|0[1-9]|[1-9]| [1-9])\.(1[0-2]|0[1-9]|[1-9])\.(\d\d\d\d)\s+(2[0-3]|[0-1]\d|\d):([0-5]\d|\d)\s+Uhr`
(IGNORECASE), takes the backtracking-preferred match anchored at the start,
raises ValueError if there is no match or unconverted data remains, and then
validates the day against the month via the `datetime` constructor.  The
alternative lists below enumerate each directive's regex alternatives in
preference order; `\s+` is greedy with backtracking. -/

/-- Numeric value of an ASCII digit. -/
def digitVal (c : Char) : Nat := c.toNat - 48

/-- Is `c` an ASCII digit in `[lo, hi]`? -/
def digBetween (lo hi : Nat) (c : Char) : Bool :=
  48 + lo ≤ c.toNat && c.toNat ≤ 48 + hi

/-- `%d`: `3[0-1]|[1-2]\d|0[1-9]|[1-9]| [1-9]`, alternatives in order. -/
def altDay : List Char → List (Nat × List Char)
  | c1 :: c2 :: r =>
    (if c1 == '3' && digBetween 0 1 c2 then [(30 + digitVal c2, r)] else []) ++
    (if digBetween 1 2 c1 && digBetween 0 9 c2 then [(10 * digitVal c1 + digitVal c2, r)] else []) ++
    (if c1 == '0' && digBetween 1 9 c2 then [(digitVal c2, r)] else []) ++
    (if digBetween 1 9 c1 then [(digitVal c1, c2 :: r)] else []) ++
    (if c1 == ' ' && digBetween 1 9 c2 then [(digitVal c2, r)] else [])
  | [c1] => if digBetween 1 9 c1 then [(digitVal c1, [])] else []
  | [] => []

/-- `%m`: `1[0-2]|0[1-9]|[1-9]`, alternatives in order. -/
def altMonth : List Char → List (Nat × List Char)
  | c1 :: c2 :: r =>
    (if c1 == '1' && digBetween 0 2 c2 then [(10 + digitVal c2, r)] else []) ++
    (if c1 == '0' && digBetween 1 9 c2 then [(digitVal c2, r)] else []) ++
    (if digBetween 1 9 c1 then [(digitVal c1, c2 :: r)] else [])
  | [c1] => if digBetween 1 9 c1 then [(digitVal c1, [])] else []
  | [] => []

/-- `%H`: `2[0-3]|[0-1]\d|\d`, alternatives in order. -/
def altHour : List Char → List (Nat × List Char)
  | c1 :: c2 :: r =>
    (if c1 == '2' && digBetween 0 3 c2 then [(20 + digitVal c2, r)] else []) ++
    (if digBetween 0 1 c1 && digBetween 0 9 c2 then [(10 * digitVal c1 + digitVal c2, r)] else []) ++
    (if digBetween 0 9 c1 then [(digitVal c1, c2 :: r)] else [])
  | [c1] => if digBetween 0 9 c1 then [(digitVal c1, [])] else []
  | [] => []

/-- `%M`: `[0-5]\d|\d`, alternatives in order. -/
def altMinute : List Char → List (Nat × List Char)
  | c1 :: c2 :: r =>
    (if digBetween 0 5 c1 && digBetween 0 9 c2 then [(10 * digitVal c1 + digitVal c2, r)] else []) ++
    (if digBetween 0 9 c1 then [(digitVal c1, c2 :: r)] else [])
  | [c1] => if digBetween 0 9 c1 then [(digitVal c1, [])] else []
  | [] => []

/-- `%Y`: exactly `\d\d\d\d`. -/
def altYear : List Char → List (Nat × List Char)
  | a :: b :: c :: d :: r =>
    if digBetween 0 9 a && digBetween 0 9 b && digBetween 0 9 c && digBetween 0 9 d then
      [(1000 * digitVal a + 100 * digitVal b + 10 * digitVal c + digitVal d, r)]
    else []
  | _ => []

/-- Exact literal character (regex-escaped literals like `.` and `:`). -/
def matchLit (c : Char) : List Char → List (List Char)
  | x :: r => if x == c then [r] else []
  | [] => []

/-- Python `re` `\s` characters (ASCII part). -/
def isReWs (c : Char) : Bool :=
  c == ' ' || c == '\t' || c == '\n' || c == '\r' || c.toNat == 11 || c.toNat == 12

/-- Greedy `\s+`: remainders after consuming k, k-1, …, 1 whitespace
characters, longest first (regex backtracking preference). -/
def wsAlts (cs : List Char) : List (List Char) :=
  let k := (cs.takeWhile isReWs).length
  (List.range k).map (fun i => cs.drop (k - i))

/-- The literal `Uhr`, matched case-insensitively (IGNORECASE). -/
def matchUhr : List Char → List (List Char)
  | a :: b :: c :: r =>
    if asciiLowerChar a == 'u' && asciiLowerChar b == 'h' && asciiLowerChar c == 'r' then [r]
    else []
  | _ => []

/-- All regex matches of the compiled `"%d.%m.%Y %H:%M Uhr"` pattern anchored
at the start of `cs`, in backtracking preference order, with remainders. -/
def strptimeMatches (cs : List Char) :
    List ((Nat × Nat × Nat × Nat × Nat) × List Char) :=
  (altDay cs).flatMap fun dv =>
  (matchLit '.' dv.2).flatMap fun r2 =>
  (altMonth r2).flatMap fun mv =>
  (matchLit '.' mv.2).flatMap fun r4 =>
  (altYear r4).flatMap fun yv =>
  (wsAlts yv.2).flatMap fun r6 =>
  (altHour r6).flatMap fun hv =>
  (matchLit ':' hv.2).flatMap fun r8 =>
  (altMinute r8).flatMap fun miv =>
  (wsAlts miv.2).flatMap fun r10 =>
  (matchUhr r10).map fun r11 => ((dv.1, mv.1, yv.1, hv.1, miv.1), r11)

/-- `datetime.strptime(s, "%d.%m.%Y %H:%M Uhr")`, as minutes since
0001-01-01 00:00; `none` models a raised `ValueError` (no match,
unconverted trailing data, or a day/year the `datetime` constructor
rejects). `re.match` commits to the backtracking-preferred match before
the unconverted-data check, so only the head of the match list counts. -/
def strptimeDmyHmUhr (s : String) : Option Nat :=
  match strptimeMatches s.data with
  | [] => none
  | (v, rest) :: _ =>
    if !rest.isEmpty then none
    else
      let y := v.2.2.1
      let m := v.2.1
      let d := v.1
      if 1 ≤ y && d ≤ daysInMonth y m then
        some ((toOrdinal y m d - 1) * 1440 + v.2.2.2.1 * 60 + v.2.2.2.2)
      else none

/-! ## Document tree (the BeautifulSoup fragment the code uses)

`BeautifulSoup(html, "html.parser")` yields a tree of element tags and
text; the scraper only uses `find` / `find_all` (recursive descendant
search in document order with exact name and attribute matching),
`.text` (concatenated descendant text) and `.get` (attribute lookup).
A bs4 `Tag` is *falsy* when it has no children (`Tag.__len__` is
`len(self.contents)`), which the code's `if not tag:` tests rely on. -/

inductive Node where
  | element (name : String) (attrs : List (String × String)) (children : List Node)
  | text (s : String)

/-- Python truthiness of a bs4 node: a `Tag` is truthy iff it has children
(`__len__`), a `NavigableString` iff it is nonempty (`str`). -/
def tagTruthy : Node → Bool
  | .element _ _ cs => !cs.isEmpty
  | .text s => s != ""

/-- Python truthiness of a `find` result (`None` is falsy). -/
def pyTruthy : Option Node → Bool
  | none => false
  | some n => tagTruthy n

/-- First value of attribute `k` (html.parser keeps the first occurrence
of a duplicated attribute); `Tag.get(k)` in bs4. -/
def attrGet (n : Node) (k : String) : Option String :=
  match n with
  | .element _ attrs _ => ((attrs.filter (fun p => p.1 == k)).head?).map (·.2)
  | .text _ => none

/-- Does node `n` match tag name `name` and carry every (key, value) pair
of `attrs`?  bs4 matches names and attribute values by string equality. -/
def matchesTag (name : String) (attrs : List (String × String)) (n : Node) : Bool :=
  match n with
  | .element nm _ _ => nm == name && attrs.all (fun p => attrGet n p.1 == some p.2)
  | .text _ => false

mutual
/-- Descendants of a node in document (pre-)order, excluding the node
itself — the search space of bs4 `find` / `find_all`. -/
def nodeDesc : Node → List Node
  | .text _ => []
  | .element _ _ cs => listDesc cs
/-- Descendants of a forest in document order, each root included. -/
def listDesc : List Node → List Node
  | [] => []
  | c :: rest => c :: (nodeDesc c ++ listDesc rest)
end

/-- bs4 `find_all(name, attrs=attrs)`: matching descendants in document order. -/
def findAllTags (root : Node) (name : String) (attrs : List (String × String)) :
    List Node :=
  (nodeDesc root).filter (matchesTag name attrs)

/-- bs4 `find(name, attrs=attrs)`: first matching descendant, else `None`. -/
def findTag (root : Node) (name : String) (attrs : List (String × String)) :
    Option Node :=
  (findAllTags root name attrs).head?

mutual
/-- bs4 `.text` / `get_text()`: concatenation of all descendant strings. -/
def nodeText : Node → String
  | .text s => s
  | .element _ _ cs => listText cs
/-- Concatenated text of a forest in document order. -/
def listText : List Node → String
  | [] => ""
  | c :: rest => nodeText c ++ listText rest
end

/-! ## Row Locator: `extract_table_row` -/

/-- `extract_table_row` from src/main.py: find the first `table` (falsy —
missing or empty — fails), collect its `tr` descendants (fewer than two
fails), and return the first row with at least one `td` descendant;
otherwise `None`.  The `except IndexError: pass` is dead code. -/
def extract_table_row (html : Node) : Option Node :=
  match findTag html "table" [] with
  | none => none
  | some table =>
    if !tagTruthy table then none
    else
      let rows := findAllTags table "tr" []
      if rows.length < 2 then none
      else rows.find? (fun row => !(findAllTags row "td" []).isEmpty)

/-! ## Slot Extractor: `get_booking_information` -/

/-- Result of `get_booking_information`: `failure` models the `return None`
taken when a required cell is missing (or empty, hence falsy); `raised`
models an exception propagating out (`strptime` ValueError on malformed
time text, or `AttributeError` from `None.get("href")` when the first
anchor-bearing cell has no titled anchor); `ok` carries the returned
tuple `(start_slot, end_slot, is_available, booking_link)` with times in
UTC minutes and the link as `Tag.get("href")` returns it (possibly `None`). -/
inductive BookingResult where
  | failure
  | raised (msg : String)
  | ok (startSlot endSlot : Nat) (isAvailable : Bool) (bookingLink : Option String)
deriving DecidableEq, Repr

/-- The sentinel URL used when a slot is not available. -/
def notAvailableUrl : String := "https://not.available"

/-- The sold-out marker word looked for in the available-tickets cell. -/
def soldOutMarker : String := "ausverkauft"

/-- `booking_link_a` from `get_booking_information`: for every `td`
descendant whose first anchor is truthy, the first anchor with
`title="Zur Tarifauswahl"` inside that `td` (which may be `None`). -/
def bookingLinkCandidates (soup : Node) : List (Option Node) :=
  ((findAllTags soup "td" []).filter (fun td => pyTruthy (findTag td "a" []))).map
    (fun td => findTag td "a" [("title", "Zur Tarifauswahl")])

/-- Does the available-tickets cell of the row mark it sold out
(`"ausverkauft" in cell.text.lower()`)?  `false` when the cell is absent. -/
def soldOutText (soup : Node) : Bool :=
  match findTag soup "td" [("data-title", "Freie E-Tickets")] with
  | some ac => strContainsSub (pyLower (nodeText ac)) soldOutMarker
  | none => false

/-- `get_booking_information` from src/main.py, translated clause by
clause: locate the three labelled cells (any falsy one returns `None`),
parse the two time cells with `strptime` (failures raise), compute
`is_available` from the anchor list and the sold-out marker, and choose
the booking link (`href` of the first candidate when available, else the
sentinel). -/
def get_booking_information (soup : Node) (date : String) : BookingResult :=
  let start_slot_col := findTag soup "td" [("data-title", "Von")]
  let end_slot_col := findTag soup "td" [("data-title", "Bis")]
  let available_slots_col := findTag soup "td" [("data-title", "Freie E-Tickets")]
  let booking_link_a := bookingLinkCandidates soup
  match start_slot_col, end_slot_col, available_slots_col with
  | some sc, some ec, some ac =>
    if !(tagTruthy sc && tagTruthy ec && tagTruthy ac) then .failure
    else
      match strptimeDmyHmUhr (date ++ " " ++ pyStrip (nodeText sc)) with
      | none => .raised "ValueError: time data does not match format"
      | some startTime =>
        match strptimeDmyHmUhr (date ++ " " ++ pyStrip (nodeText ec)) with
        | none => .raised "ValueError: time data does not match format"
        | some endTime =>
          let is_available :=
            !booking_link_a.isEmpty &&
              !strContainsSub (pyLower (nodeText ac)) soldOutMarker
          if is_available then
            match booking_link_a.head? with
            | some (some a) => .ok (_utc startTime) (_utc endTime) true (attrGet a "href")
            | some none => .raised "AttributeError: NoneType has no attribute get"
            | none => .raised "IndexError: list index out of range"
          else .ok (_utc startTime) (_utc endTime) false (some notAvailableUrl)
  | _, _, _ => .failure

/-! ## `EventDetails` and its JSON serialization -/

/-- One booking slot, as the `EventDetails` dataclass: times are naive-UTC
minute counts; `booking_link` is a Python `str` or `None`. -/
structure EventDetails where
  booking_link : Option String
  begin_time : Nat
  end_time : Nat
  sale_start : Nat
  is_available : Bool
deriving DecidableEq, Repr

/-- A Python value as it appears in the serialized dict. -/
inductive PyVal where
  | vStr (s : String)
  | vNone
  | vBool (b : Bool)
  | vDatetime (minutes : Nat)
deriving DecidableEq, Repr

/-- `booking_link` as a Python value. -/
def pyOfLink : Option String → PyVal
  | some s => .vStr s
  | none => .vNone

/-- `dataclasses.asdict(self).items()` in field declaration order. -/
def EventDetails.asdict (e : EventDetails) : List (String × PyVal) :=
  [("booking_link", pyOfLink e.booking_link),
   ("begin_time", .vDatetime e.begin_time),
   ("end_time", .vDatetime e.end_time),
   ("sale_start", .vDatetime e.sale_start),
   ("is_available", .vBool e.is_available)]

/-- The loop body of `EventDetails.json`: datetimes become
`f"{value.isoformat()}Z"`, everything else passes through. -/
def jsonOfVal : PyVal → PyVal
  | .vDatetime t => .vStr (isoformat t ++ "Z")
  | v => v

/-- `EventDetails.json` from src/main.py. -/
def EventDetails.json (e : EventDetails) : List (String × PyVal) :=
  e.asdict.map (fun kv => (kv.1, jsonOfVal kv.2))

/-- `__repr__` of `EventDetails`. -/
def pyOptStr : Option String → String
  | some s => s
  | none => "None"

/-- `__repr__` of `EventDetails`: `is_available={b} ({link})`. -/
def reprEventDetails (e : EventDetails) : String :=
  "is_available=" ++ (if e.is_available then "True" else "False") ++
    " (" ++ pyOptStr e.booking_link ++ ")"

/-- `str` of a Python list of `EventDetails` (repr of each element). -/
def pyListRepr (es : List EventDetails) : String :=
  "[" ++ String.intercalate ", " (es.map reprEventDetails) ++ "]"

/-! ## Event Aggregator and `main`

The external collaborators (HTTP transport, bs4 parsing/serialization of
raw markup, the backend PUT, the wall clock and the environment
variables) are supplied as oracles in `Env`; everything else is
translated from `main`, `get_website`, `parse_website_xml` and
`send_data_to_backend` in src/main.py. -/

/-- External environment of one run. -/
structure Env where
  /-- Day index of `datetime.now()` truncated to midnight. -/
  todayDay : Nat
  /-- `os.getenv("POTSDAM_UUID")`. -/
  uuid : Option String
  /-- `os.getenv("API_KEY")`. -/
  apiKey : Option String
  /-- `BACKEND_URL` after defaulting. -/
  backendUrl : String
  /-- `BACKEND_PATH` after defaulting. -/
  backendPath : String
  /-- `get_website`'s transport: the decoded body and `status == 200`,
  keyed by the `%Y-%m-%d` date string the URL is built from. -/
  fetch : String → String × Bool
  /-- `BeautifulSoup(content, "html.parser")`. -/
  parse : String → Node
  /-- `f"{soup}"`: bs4's serialization of a tree, used in error messages. -/
  decode : Node → String
  /-- The backend PUT: `None` models a connection-level exception caught in
  `send_data_to_backend`; otherwise `(response.ok, f"{response.content}")`. -/
  put : List EventDetails → Option (Bool × String)

/-- Python truthiness of `os.getenv`'s result: `None` and `""` are falsy. -/
def pyTruthyStr : Option String → Bool
  | none => false
  | some s => s != ""

/-- Outcome of one iteration of the date loop of `main`. -/
inductive DateStep where
  | ok (e : EventDetails)
  | fail (msg : String)
  | exn (msg : String)
deriving DecidableEq, Repr

/-- The slot of a successful `DateStep`. -/
def DateStep.okSlot : DateStep → Option EventDetails
  | .ok e => some e
  | _ => none

/-- One iteration of the date loop of `main` for the date with day index
`d`: fetch (`return False, message` on a non-200 status), parse, locate
the row (`if not booking_row` fails), extract, and build the
`EventDetails` with the shared `sale` timestamp. -/
def processDate (env : Env) (sale : Nat) (d : Nat) : DateStep :=
  let fetched := env.fetch (fmtYmd d)
  if !fetched.2 then .fail ("Couldn't retrieve website: " ++ fetched.1)
  else
    let soup := env.parse fetched.1
    match extract_table_row soup with
    | none => .fail "Couldn't find correct row"
    | some row =>
      if !tagTruthy row then .fail "Couldn't find correct row"
      else
        match get_booking_information row (fmtDmy d) with
        | .failure => .fail ("Couldn't retrieve water information from " ++ env.decode soup)
        | .raised m => .exn m
        | .ok s e a l =>
          .ok { booking_link := l, begin_time := s, end_time := e,
                sale_start := sale, is_available := a }

/-- Outcome of the whole date loop. -/
inductive LoopRes where
  | done (evs : List EventDetails)
  | fail (msg : String)
  | exn (msg : String)
deriving DecidableEq, Repr

/-- The date loop of `main`: process the dates in order, appending each
slot to `details`; the first failing date short-circuits with its message
(an uncaught exception propagates). -/
def processDates (env : Env) (sale : Nat) : List Nat → LoopRes
  | [] => .done []
  | d :: rest =>
    match processDate env sale d with
    | .fail m => .fail m
    | .exn m => .exn m
    | .ok ev =>
      match processDates env sale rest with
      | .done evs => .done (ev :: evs)
      | r => r

/-- The day indices `today + i` for `i in range(n)`. -/
def datesFor (todayDay n : Nat) : List Nat := (List.range n).map (todayDay + ·)

/-- `sale_start_time` of the run: `_utc(today-at-midnight)`. -/
def saleStartOf (env : Env) : Nat := _utc (env.todayDay * 1440)

/-- Replace the first `{}` of a template, as `str.format` with one
argument does on the templates used here. -/
def pyFormatOne : List Char → String → String
  | '{' :: '}' :: rest, a => a ++ ⟨rest⟩
  | c :: rest, a => ⟨[c]⟩ ++ pyFormatOne rest a
  | [], _ => ""

/-- How a run ends: a `(success, message)` return from `main`, or an
exception escaping `main` (the script then dies with a traceback). -/
inductive MainRes where
  | crashed (msg : String)
  | returned (success : Bool) (message : String)
deriving DecidableEq, Repr

/-- Observable outcome of a run: `sent` is the `details` list handed to
`send_data_to_backend` (as the `events` of the payload), when that call
is reached; `res` is how `main` ended. -/
structure RunOutcome where
  sent : Option (List EventDetails)
  res : MainRes
deriving DecidableEq, Repr

/-- `main` from src/main.py, with the loop bound `n` as a parameter.
Modelled from the spec: the source's loop header is `for i in range(0)` —
the date-range bound is disabled; the spec (§9) treats the range as "a
configurable contiguous range of calendar dates starting today", so the
bound is taken as the parameter `n`, and `main` below instantiates
`n := 0` exactly as the source does.  Everything else is translated from
the source: the configuration guards, the shared `sale_start_time`, the
loop, and the publish step (`response` is falsy on `None` or a non-ok
status; the `None` case then crashes building the message from
`response.content`). -/
def runMain (env : Env) (n : Nat) : RunOutcome :=
  if !pyTruthyStr env.uuid then ⟨none, .returned false "POTSDAM_UUID not defined"⟩
  else if !pyTruthyStr env.apiKey then ⟨none, .returned false "API_KEY not defined"⟩
  else
    match processDates env (saleStartOf env) (datesFor env.todayDay n) with
    | .fail m => ⟨none, .returned false m⟩
    | .exn m => ⟨none, .crashed m⟩
    | .done details =>
      let url := env.backendUrl ++ "/" ++
        pyFormatOne env.backendPath.data (pyOptStr env.uuid)
      match env.put details with
      | none => ⟨some details, .crashed "AttributeError: NoneType has no attribute content"⟩
      | some resp =>
        if resp.1 then ⟨some details, .returned true ""⟩
        else
          ⟨some details, .returned false
            ("Failed to put data 'variation': 'Stadtbad Badelsberg', 'events': " ++
              pyListRepr details ++ ") to backend: " ++ url ++ "\n" ++ resp.2)⟩

/-- `main` as in the source (Lean reserves the name `main`, hence `mainRun`):
the date range is `range(0)`. -/
def mainRun (env : Env) : RunOutcome := runMain env 0

/-- Does the row contain at least one booking-link candidate that is a
titled booking anchor (a non-`None` entry of `booking_link_a`)? -/
def hasBookingCandidate (soup : Node) : Bool :=
  (bookingLinkCandidates soup).any (fun o => o.isSome)

/-! ### Concrete documents used by the witnesses -/

/-- A `Von` (start-time) cell. -/
def tdVon : Node := .element "td" [("data-title", "Von")] [.text "09:00 Uhr"]

/-- A `Bis` (end-time) cell. -/
def tdBis : Node := .element "td" [("data-title", "Bis")] [.text "10:00 Uhr"]

/-- An available-tickets cell with free tickets. -/
def tdFrei : Node := .element "td" [("data-title", "Freie E-Tickets")] [.text "12 frei"]

/-- An available-tickets cell marked sold out. -/
def tdFreiSold : Node :=
  .element "td" [("data-title", "Freie E-Tickets")] [.text "Ausverkauft"]

/-- A titled booking anchor with an `href`. -/
def anchorBook : Node :=
  .element "a" [("title", "Zur Tarifauswahl"), ("href", "https://shop.example/book")]
    [.text "Buchen"]

/-- A titled booking anchor without an `href` attribute. -/
def anchorNoHref : Node :=
  .element "a" [("title", "Zur Tarifauswahl")] [.text "Buchen"]

/-- A cell holding the booking anchor. -/
def tdLink : Node := .element "td" [] [anchorBook]

/-- A fully regular data row (all three cells, a booking anchor). -/
def rowGood : Node := .element "tr" [] [tdVon, tdBis, tdFrei, tdLink]

/-- A data row marked sold out that still carries a booking anchor. -/
def rowSold : Node := .element "tr" [] [tdVon, tdBis, tdFreiSold, tdLink]

/-- A data row whose `Bis` cell is missing. -/
def rowNoBis : Node := .element "tr" [] [tdVon, tdFrei, tdLink]

/-- A data row whose titled anchor has no `href`. -/
def rowNoHref : Node :=
  .element "tr" [] [tdVon, tdBis, tdFrei, .element "td" [] [anchorNoHref]]

/-- A `Von` cell whose text is not a `HH:MM Uhr` time. -/
def tdVonBad : Node := .element "td" [("data-title", "Von")] [.text "morgens"]

/-- A data row whose `Von` cell does not hold a `HH:MM Uhr` time. -/
def rowBadTime : Node := .element "tr" [] [tdVonBad, tdBis, tdFrei, tdLink]

/-- A header-only row (no `td`). -/
def headerRow : Node := .element "tr" [] [.element "th" [] [.text "Von"]]

/-- A second data row, to exercise the first-match policy. -/
def rowSecond : Node := .element "tr" [] [.element "td" [] [.text "later"]]

/-- The table of the row-locator witness: header, then two data rows. -/
def tableW : Node := .element "table" [] [headerRow, rowGood, rowSecond]

/-- The document of the row-locator witness. -/
def docW : Node := .element "html" [] [.element "body" [] [tableW]]

/-- The document the bad-date fetch of the aggregator witness parses to:
its data row misses the `Bis` cell, so extraction fails. -/
def docBadW : Node := .element "html" [] [.element "table" [] [headerRow, rowNoBis]]

/-- The document the good-date fetches parse to. -/
def docGoodW : Node := .element "html" [] [.element "table" [] [headerRow, rowGood]]

/-- Fetch oracle of the aggregator witness: page `B` for 2024-06-02, page
`A` otherwise, always HTTP 200. -/
def fetchW : String → String × Bool :=
  fun ds => (if ds == "2024-06-02" then "B" else "A", true)

/-- Parse oracle of the aggregator witness. -/
def parseW : String → Node := fun s => if s == "A" then docGoodW else docBadW

/-- Environment of the aggregator witnesses; today is 2024-06-01
(day index 739037). -/
def cEnvW : Env :=
  { todayDay := 739037
    uuid := some "uuid-1"
    apiKey := some "key-1"
    backendUrl := "http://api:80"
    backendPath := "lake/{}/booking"
    fetch := fetchW
    parse := parseW
    decode := fun _ => "SOUP"
    put := fun _ => some (true, "ok") }

/-- An alternative fetch oracle (used to show fetch is never consulted). -/
def f0 : String → String × Bool := fun _ => ("", false)

/-- An alternative parse oracle (used to show parse is never consulted). -/
def p0 : String → Node := fun _ => .text ""

/-! ## Theorems -/

/-- **C5.** For every valid local naive timestamp `t` in Europe/Berlin —
valid meaning some UTC instant displays as wall clock `t`, which admits
ambiguous fall-back times and excludes only the nonexistent spring-forward
gap — normalizing with `_utc` (attach Europe/Berlin, convert to UTC, strip
the tag) and then re-localizing from UTC back to Europe/Berlin returns the
original wall-clock value, across CET/CEST offset changes. -/
theorem c5_time_normalizer_roundtrip (t : Nat) (h : ∃ u, berlinFromUtc u = t) :
    berlinFromUtc (_utc t) = t := by
  obtain ⟨u, hu⟩ := h
  by_cases hd : isDst u
  · have hu' : u + 120 = t := by
      simpa [berlinFromUtc, berlinOffset, hd] using hu
    have h120 : t - 120 = u := by omega
    by_cases h2 : isDst (t - 60)
    · have hx : _utc t = u := by simp [_utc, h120, hd, h2]
      rw [hx]
      simp only [berlinFromUtc, berlinOffset, hd, if_true]
      omega
    · rw [Bool.not_eq_true] at h2
      have h60 : t - 60 = u + 60 := by omega
      rw [h60] at h2
      have hx : _utc t = u + 60 := by simp [_utc, h60, h2]
      rw [hx]
      simp only [berlinFromUtc, berlinOffset, h2, Bool.false_eq_true, if_false]
      omega
  · rw [Bool.not_eq_true] at hd
    have hu' : u + 60 = t := by
      simpa [berlinFromUtc, berlinOffset, hd] using hu
    have h60 : t - 60 = u := by omega
    have hx : _utc t = u := by simp [_utc, h60, hd]
    rw [hx]
    simp only [berlinFromUtc, berlinOffset, hd, Bool.false_eq_true, if_false]
    omega

/-- Witness for C5 at the concrete wall-clock time 2024-06-01 09:00
Europe/Berlin (CEST): it is a valid local time (07:00 UTC displays as it)
and the round trip returns it. -/
theorem c5_witness : berlinFromUtc (_utc 1064213820) = 1064213820 :=
  c5_time_normalizer_roundtrip 1064213820 ⟨1064213700, by decide⟩

/-- **C9.** The JSON serialization of every `EventDetails` record maps each
datetime-valued field (`begin_time`, `end_time`, `sale_start`) to its
ISO8601 string with a literal trailing `"Z"` appended, and leaves the
non-datetime fields (`booking_link`, `is_available`) unchanged. -/
theorem c9_json_serialization (e : EventDetails) :
    e.json = [("booking_link", pyOfLink e.booking_link),
              ("begin_time", .vStr (isoformat e.begin_time ++ "Z")),
              ("end_time", .vStr (isoformat e.end_time ++ "Z")),
              ("sale_start", .vStr (isoformat e.sale_start ++ "Z")),
              ("is_available", .vBool e.is_available)] := by
  cases e with
  | mk l b en s a => cases l <;> rfl

/-- A node with any `find_all` hit has a descendant, hence children, hence
is truthy in the bs4 sense. -/
lemma tagTruthy_of_findAll_ne_nil (n : Node) (name : String)
    (attrs : List (String × String)) (h : findAllTags n name attrs ≠ []) :
    tagTruthy n = true := by
  cases n with
  | text s => exact absurd rfl h
  | element nm a cs =>
    cases cs with
    | nil => exact absurd rfl h
    | cons c cs' => rfl

/-- `find?` returns the head of the first satisfying suffix. -/
lemma find?_of_split {α} (p : α → Bool) (pre : List α) (x : α) (post : List α)
    (hpre : ∀ y ∈ pre, p y = false) (hx : p x = true) :
    (pre ++ x :: post).find? p = some x := by
  induction pre with
  | nil => simp [List.find?_cons, hx]
  | cons a as ih =>
    have ha : p a = false := hpre a (by simp)
    rw [List.cons_append, List.find?_cons, ha]
    exact ih (fun y hy => hpre y (by simp [hy]))

/-- **C3.** The Row Locator fails on a document with no table element;
fails when the first table has exactly one row; and otherwise (at least
two rows) returns the first row in document order with at least one `td`
cell — a first-match policy, regardless of later qualifying rows — and
fails when no row has a `td` cell. -/
theorem c3_row_locator (html : Node) :
    (findTag html "table" [] = none → extract_table_row html = none) ∧
    (∀ table, findTag html "table" [] = some table →
      ((findAllTags table "tr" []).length = 1 → extract_table_row html = none) ∧
      (2 ≤ (findAllTags table "tr" []).length →
        ((∀ pre row post, findAllTags table "tr" [] = pre ++ row :: post →
            (∀ r ∈ pre, (findAllTags r "td" []).isEmpty = true) →
            (findAllTags row "td" []).isEmpty = false →
            extract_table_row html = some row) ∧
         ((∀ r ∈ findAllTags table "tr" [], (findAllTags r "td" []).isEmpty = true) →
            extract_table_row html = none)))) := by
  constructor
  · intro h
    simp [extract_table_row, h]
  · intro table htab
    constructor
    · intro hlen
      by_cases ht : tagTruthy table
      · simp [extract_table_row, htab, ht, hlen]
      · simp [extract_table_row, htab, ht]
    · intro h2
      have hne : findAllTags table "tr" [] ≠ [] := by
        intro hnil
        rw [hnil] at h2
        simp at h2
      have ht : tagTruthy table = true :=
        tagTruthy_of_findAll_ne_nil table "tr" [] hne
      have hnl : ¬((findAllTags table "tr" []).length < 2) := by omega
      constructor
      · intro pre row post hrows hpre hrow
        simp only [extract_table_row, htab, ht, Bool.not_true, Bool.false_eq_true,
          if_false, hnl, if_true]
        rw [hrows]
        exact find?_of_split _ pre row post
          (fun y hy => by simp [hpre y hy]) (by simp [hrow])
      · intro hall
        simp only [extract_table_row, htab]
        rw [if_neg (by simp [ht]), if_neg hnl]
        rw [List.find?_eq_none]
        intro x hx
        simp [hall x hx]

/-- Inversion of a successful `get_booking_information`: the
available-tickets cell was found, and the returned availability flag and
link are tied to the sold-out text and the first booking-link candidate
exactly as the source computes them. -/
lemma gbi_ok_cases (soup : Node) (date : String) (s e : Nat) (a : Bool)
    (l : Option String)
    (h : get_booking_information soup date = .ok s e a l) :
    ∃ ac,
      findTag soup "td" [("data-title", "Freie E-Tickets")] = some ac ∧
      ((a = true ∧
        strContainsSub (pyLower (nodeText ac)) soldOutMarker = false ∧
        ∃ anode, (bookingLinkCandidates soup).head? = some (some anode) ∧
          l = attrGet anode "href") ∨
       (a = false ∧ l = some notAvailableUrl ∧
        (bookingLinkCandidates soup = [] ∨
         strContainsSub (pyLower (nodeText ac)) soldOutMarker = true))) := by
  rcases hVon : findTag soup "td" [("data-title", "Von")] with _ | sc
  · rw [get_booking_information, hVon] at h; simp at h
  rcases hBis : findTag soup "td" [("data-title", "Bis")] with _ | ec
  · rw [get_booking_information, hVon, hBis] at h; simp at h
  rcases hFrei : findTag soup "td" [("data-title", "Freie E-Tickets")] with _ | ac
  · rw [get_booking_information, hVon, hBis, hFrei] at h; simp at h
  refine ⟨ac, rfl, ?_⟩
  cases hb : (tagTruthy sc && tagTruthy ec && tagTruthy ac) with
  | false =>
    have key : get_booking_information soup date = .failure := by
      simp [get_booking_information, hVon, hBis, hFrei, hb]
    rw [key] at h; simp at h
  | true =>
    rcases hp1 : strptimeDmyHmUhr (date ++ " " ++ pyStrip (nodeText sc)) with _ | t1
    · have key : get_booking_information soup date =
          .raised "ValueError: time data does not match format" := by
        simp [get_booking_information, hVon, hBis, hFrei, hb, hp1]
      rw [key] at h; simp at h
    rcases hp2 : strptimeDmyHmUhr (date ++ " " ++ pyStrip (nodeText ec)) with _ | t2
    · have key : get_booking_information soup date =
          .raised "ValueError: time data does not match format" := by
        simp [get_booking_information, hVon, hBis, hFrei, hb, hp1, hp2]
      rw [key] at h; simp at h
    cases hav : (!(bookingLinkCandidates soup).isEmpty &&
        !strContainsSub (pyLower (nodeText ac)) soldOutMarker) with
    | false =>
      have key : get_booking_information soup date =
          .ok (_utc t1) (_utc t2) false (some notAvailableUrl) := by
        simp only [get_booking_information, hVon, hBis, hFrei, hb, hp1, hp2, hav,
          Bool.not_true, Bool.false_eq_true, if_false, if_true]
      rw [key] at h
      injection h with h1 h2 h3 h4
      refine Or.inr ⟨h3.symm, h4.symm, ?_⟩
      rcases Bool.and_eq_false_iff.mp hav with hc | hs
      · exact Or.inl (List.isEmpty_iff.mp (by simpa using hc))
      · exact Or.inr (by simpa using hs)
    | true =>
      have hcne : bookingLinkCandidates soup ≠ [] := by
        intro hnil
        rw [hnil] at hav
        simp at hav
      rcases hcands : bookingLinkCandidates soup with _ | ⟨o, rest⟩
      · exact absurd hcands hcne
      cases o with
      | none =>
        have key : get_booking_information soup date =
            .raised "AttributeError: NoneType has no attribute get" := by
          simp only [get_booking_information, hVon, hBis, hFrei, hb, hp1, hp2,
            hcands, Bool.not_true, Bool.false_eq_true, if_false, if_true,
            List.head?_cons]
          rw [hcands] at hav
          simp only [hav]
          simp
        rw [key] at h; simp at h
      | some anode =>
        have key : get_booking_information soup date =
            .ok (_utc t1) (_utc t2) true (attrGet anode "href") := by
          simp only [get_booking_information, hVon, hBis, hFrei, hb, hp1, hp2,
            hcands, Bool.not_true, Bool.false_eq_true, if_false, if_true,
            List.head?_cons]
          rw [hcands] at hav
          simp only [hav]
          simp
        rw [key] at h
        injection h with h1 h2 h3 h4
        refine Or.inl ⟨h3.symm, ?_, anode, by simp [hcands], h4.symm⟩
        rw [hcands] at hav
        simp only [Bool.and_eq_true] at hav
        simpa using hav.2

/-- A list whose head is a titled anchor yields a booking candidate. -/
lemma hasCand_of_head (soup : Node) (x : Node)
    (h : (bookingLinkCandidates soup).head? = some (some x)) :
    hasBookingCandidate soup = true := by
  cases hl : bookingLinkCandidates soup with
  | nil => rw [hl] at h; simp at h
  | cons o r =>
    rw [hl] at h
    simp only [List.head?_cons, Option.some.injEq] at h
    unfold hasBookingCandidate
    rw [hl, h]
    simp

/-- `soldOutText` computes the sold-out test on the found cell. -/
lemma soldOutText_eq (soup : Node) (ac : Node)
    (hFrei : findTag soup "td" [("data-title", "Freie E-Tickets")] = some ac) :
    soldOutText soup = strContainsSub (pyLower (nodeText ac)) soldOutMarker := by
  unfold soldOutText
  rw [hFrei]

/-- **C1.** For every located row and date on which the Slot Extractor
returns a result, the availability flag is true iff at least one
booking-link candidate (a `Zur Tarifauswahl`-titled anchor collected from
the anchor-bearing cells) exists in the row and the available-tickets
cell's text, lower-cased, does not contain `ausverkauft`; in every other
case it is false. -/
theorem c1_availability_iff (soup : Node) (date : String) (s e : Nat) (a : Bool)
    (l : Option String)
    (h : get_booking_information soup date = .ok s e a l) :
    a = true ↔ (hasBookingCandidate soup = true ∧ soldOutText soup = false) := by
  obtain ⟨ac, hFrei, hcase⟩ := gbi_ok_cases soup date s e a l h
  have hsold := soldOutText_eq soup ac hFrei
  rcases hcase with ⟨ha, hns, anode, hhead, _⟩ | ⟨ha, _, hrest⟩
  · constructor
    · intro _
      exact ⟨hasCand_of_head soup anode hhead, by rw [hsold, hns]⟩
    · intro _
      exact ha
  · constructor
    · intro h1
      rw [ha] at h1
      exact absurd h1 (by simp)
    · rintro ⟨hc, hnot⟩
      rcases hrest with hnil | hcon
      · rw [hasBookingCandidate, hnil] at hc
        simp at hc
      · rw [hsold, hcon] at hnot
        exact absurd hnot (by simp)

/-- Witness for C1: the fully regular row (anchor present, not sold out)
satisfies the extractor and the equivalence at its concrete output. -/
theorem c1_witness :
    true = true ↔
      (hasBookingCandidate rowGood = true ∧ soldOutText rowGood = false) :=
  c1_availability_iff rowGood "01.06.2024" 1064213700 1064213760 true
    (some "https://shop.example/book") (by decide)

/-- **C2 counterexample.** The claim "`is_available == true` implies
`booking_link` is a non-empty, real URL, never empty and never absent" is
false on the code: on a row whose titled booking anchor has no `href`
attribute, extraction succeeds with `is_available = true` and an absent
(`None`) booking link. -/
theorem c2_counterexample :
    get_booking_information rowNoHref "01.06.2024" =
      .ok 1064213700 1064213760 true none := by decide

/-- **C2 (amended).** If extraction succeeds, `is_available = false` implies
`booking_link` is the sentinel `https://not.available`; `is_available = true`
implies `booking_link` is the `href` attribute value extracted from the first
booking-link candidate of the document — which is absent when that anchor
carries no `href` (and may be whatever the document supplies, including an
empty string). -/
theorem c2_booking_link_amended (soup : Node) (date : String) (s e : Nat)
    (a : Bool) (l : Option String)
    (h : get_booking_information soup date = .ok s e a l) :
    (a = false → l = some notAvailableUrl) ∧
    (a = true → ∃ anode, (bookingLinkCandidates soup).head? = some (some anode) ∧
      l = attrGet anode "href") := by
  obtain ⟨ac, hFrei, hcase⟩ := gbi_ok_cases soup date s e a l h
  rcases hcase with ⟨ha, _, anode, hhead, hl⟩ | ⟨ha, hl, _⟩
  · constructor
    · intro hf
      rw [ha] at hf
      exact absurd hf (by simp)
    · intro _
      exact ⟨anode, hhead, hl⟩
  · constructor
    · intro _
      exact hl
    · intro ht
      rw [ha] at ht
      exact absurd ht (by simp)

/-- Witness for the amended C2 at the regular row: the extractor succeeds
and the link is the candidate anchor's `href`. -/
theorem c2_witness :
    (true = false → some "https://shop.example/book" = some notAvailableUrl) ∧
    (true = true → ∃ anode,
      (bookingLinkCandidates rowGood).head? = some (some anode) ∧
      some "https://shop.example/book" = attrGet anode "href") :=
  c2_booking_link_amended rowGood "01.06.2024" 1064213700 1064213760 true
    (some "https://shop.example/book") (by decide)

/-- **C4.** If any of the three labelled cells (`Von`, `Bis`,
`Freie E-Tickets`) is absent from the row, the Slot Extractor returns its
failure value (`None`): no `BookingSlot` and no partial slot is emitted. -/
theorem c4_missing_cell_fatal (soup : Node) (date : String)
    (h : findTag soup "td" [("data-title", "Von")] = none ∨
         findTag soup "td" [("data-title", "Bis")] = none ∨
         findTag soup "td" [("data-title", "Freie E-Tickets")] = none) :
    get_booking_information soup date = .failure := by
  rcases hVon : findTag soup "td" [("data-title", "Von")] with _ | sc
  · simp [get_booking_information, hVon]
  rcases hBis : findTag soup "td" [("data-title", "Bis")] with _ | ec
  · simp [get_booking_information, hVon, hBis]
  rcases hFrei : findTag soup "td" [("data-title", "Freie E-Tickets")] with _ | ac
  · simp [get_booking_information, hVon, hBis, hFrei]
  rcases h with h1 | h2 | h3
  · rw [hVon] at h1; exact absurd h1 (by simp)
  · rw [hBis] at h2; exact absurd h2 (by simp)
  · rw [hFrei] at h3; exact absurd h3 (by simp)

/-- Witness for C4: the row missing its `Bis` cell extracts to `None`. -/
theorem c4_witness : get_booking_information rowNoBis "01.06.2024" = .failure :=
  c4_missing_cell_fatal rowNoBis "01.06.2024" (Or.inr (Or.inl rfl))

/-- **C6.** Whenever the available-tickets cell text contains `ausverkauft`
(case-insensitively) and the Slot Extractor produces a slot, that slot has
`is_available = false` and `booking_link` equal to the sentinel
`https://not.available` — regardless of any booking anchor in the row. -/
theorem c6_sold_out_overrides (soup : Node) (date : String) (s e : Nat)
    (a : Bool) (l : Option String)
    (hsold : soldOutText soup = true)
    (h : get_booking_information soup date = .ok s e a l) :
    a = false ∧ l = some notAvailableUrl := by
  obtain ⟨ac, hFrei, hcase⟩ := gbi_ok_cases soup date s e a l h
  have heq := soldOutText_eq soup ac hFrei
  rcases hcase with ⟨_, hns, _⟩ | ⟨ha, hl, _⟩
  · rw [heq] at hsold
    rw [hsold] at hns
    exact absurd hns (by simp)
  · exact ⟨ha, hl⟩

/-- Witness for C6: the sold-out row that still carries a booking anchor
yields an unavailable slot with the sentinel link. -/
theorem c6_witness : false = false ∧ some notAvailableUrl = some notAvailableUrl :=
  c6_sold_out_overrides rowSold "01.06.2024" 1064213700 1064213760 false
    (some notAvailableUrl) (by decide) (by decide)

/-- **C8.** On a row whose three labelled cells are present (located and
truthy) but whose start-cell or end-cell text does not parse against
`"<date> HH:MM Uhr"`, the Slot Extractor raises (the ValueError
propagates) instead of returning the masked `None` failure value. -/
theorem c8_malformed_time_raises (soup : Node) (date : String) (sc ec ac : Node)
    (hVon : findTag soup "td" [("data-title", "Von")] = some sc)
    (hBis : findTag soup "td" [("data-title", "Bis")] = some ec)
    (hFrei : findTag soup "td" [("data-title", "Freie E-Tickets")] = some ac)
    (htv : tagTruthy sc = true) (hte : tagTruthy ec = true)
    (hta : tagTruthy ac = true)
    (hbad : strptimeDmyHmUhr (date ++ " " ++ pyStrip (nodeText sc)) = none ∨
            strptimeDmyHmUhr (date ++ " " ++ pyStrip (nodeText ec)) = none) :
    ∃ msg, get_booking_information soup date = .raised msg := by
  refine ⟨"ValueError: time data does not match format", ?_⟩
  rcases hbad with hb1 | hb2
  · simp [get_booking_information, hVon, hBis, hFrei, htv, hte, hta, hb1]
  · rcases hp1 : strptimeDmyHmUhr (date ++ " " ++ pyStrip (nodeText sc)) with _ | t1
    · simp [get_booking_information, hVon, hBis, hFrei, htv, hte, hta, hp1]
    · simp [get_booking_information, hVon, hBis, hFrei, htv, hte, hta, hp1, hb2]

/-- Witness for C8: the row whose `Von` cell text is `morgens` makes the
extractor raise. -/
theorem c8_witness : ∃ msg, get_booking_information rowBadTime "01.06.2024" = .raised msg :=
  c8_malformed_time_raises rowBadTime "01.06.2024" tdVonBad tdBis tdFrei
    rfl rfl rfl rfl rfl rfl (Or.inl (by decide))

/-- Witness for C3: in a document whose first table holds a header row and
two data rows, the locator returns the first data row even though a later
row also has a `td` cell. -/
theorem c3_witness : extract_table_row docW = some rowGood :=
  (((c3_row_locator docW).2 tableW rfl).2 (by decide)).1
    [headerRow] rowGood [rowSecond] rfl
    (fun r hr => by
      simp only [List.mem_singleton] at hr
      subst hr
      rfl)
    rfl

/-- Dates that all process successfully accumulate their slots in order. -/
lemma processDates_all_ok (env : Env) (sale : Nat) (ds : List Nat)
    (h : ∀ d ∈ ds, (processDate env sale d).okSlot.isSome = true) :
    processDates env sale ds =
      .done (ds.filterMap (fun d => (processDate env sale d).okSlot)) := by
  induction ds with
  | nil => simp [processDates]
  | cons d rest ih =>
    have hd := h d (by simp)
    rcases hs : processDate env sale d with e | m | m
    · simp only [processDates, hs,
        ih (fun x hx => h x (List.mem_cons_of_mem _ hx)),
        List.filterMap_cons, DateStep.okSlot]
    · rw [hs] at hd
      simp [DateStep.okSlot] at hd
    · rw [hs] at hd
      simp [DateStep.okSlot] at hd

/-- The first failing date short-circuits the loop with its message. -/
lemma processDates_prefix_fail (env : Env) (sale : Nat) (pre : List Nat)
    (d : Nat) (post : List Nat) (m : String)
    (hpre : ∀ x ∈ pre, (processDate env sale x).okSlot.isSome = true)
    (hd : processDate env sale d = .fail m) :
    processDates env sale (pre ++ d :: post) = .fail m := by
  induction pre with
  | nil => simp [processDates, hd]
  | cons a as ih =>
    have ha := hpre a (by simp)
    rcases hs : processDate env sale a with e | mm | mm
    · have hrest := ih (fun x hx => hpre x (List.mem_cons_of_mem _ hx))
      simp only [List.cons_append, processDates, hs, List.append_eq, hrest]
    · rw [hs] at ha
      simp [DateStep.okSlot] at ha
    · rw [hs] at ha
      simp [DateStep.okSlot] at ha

/-- **C7.** With valid configuration, the Aggregator (the date loop of
`main`, its disabled `range(0)` bound generalized to a parameter `n` as
the spec treats the range as configurable) processes dates in order and
stops at the first stage failure — fetch, parse/locate, or extract —
returning exactly that stage's error message with nothing published
(`sent = none`: no slot from earlier successful dates is retained); and
when every date succeeds, the full ordered slot list is handed to the
backend publisher. -/
theorem c7_aggregator_short_circuit (env : Env) (n : Nat)
    (hu : pyTruthyStr env.uuid = true) (hk : pyTruthyStr env.apiKey = true) :
    (∀ pre d post m, datesFor env.todayDay n = pre ++ d :: post →
      (∀ x ∈ pre, (processDate env (saleStartOf env) x).okSlot.isSome = true) →
      processDate env (saleStartOf env) d = .fail m →
      runMain env n = ⟨none, .returned false m⟩) ∧
    ((∀ d ∈ datesFor env.todayDay n,
        (processDate env (saleStartOf env) d).okSlot.isSome = true) →
      (runMain env n).sent =
        some ((datesFor env.todayDay n).filterMap
          (fun d => (processDate env (saleStartOf env) d).okSlot))) := by
  constructor
  · intro pre d post m hsplit hpre hfail
    have hrw : processDates env (saleStartOf env) (datesFor env.todayDay n) =
        .fail m := by
      rw [hsplit]
      exact processDates_prefix_fail env (saleStartOf env) pre d post m hpre hfail
    simp [runMain, hu, hk, hrw]
  · intro hall
    have hrw := processDates_all_ok env (saleStartOf env) _ hall
    rcases hput : env.put ((datesFor env.todayDay n).filterMap
        (fun d => (processDate env (saleStartOf env) d).okSlot)) with _ | resp
    · simp [runMain, hu, hk, hrw, hput]
    · rcases resp with ⟨ok, content⟩
      cases ok
      · simp [runMain, hu, hk, hrw, hput]
      · simp [runMain, hu, hk, hrw, hput]

/-- Witness for C7: over the three dates starting 2024-06-01 where the
second date's extraction fails, the run returns that failure message and
publishes nothing, even though the first date succeeded. -/
theorem c7_witness :
    runMain cEnvW 3 =
      ⟨none, .returned false "Couldn't retrieve water information from SOUP"⟩ :=
  (c7_aggregator_short_circuit cEnvW 3 (by decide) (by decide)).1
    [739037] 739038 [739039] "Couldn't retrieve water information from SOUP"
    (by decide)
    (by
      intro x hx
      simp only [List.mem_singleton] at hx
      subst hx
      decide)
    (by decide)

/-- **C10.** With valid required configuration the date loop of `main`
iterates over `range(0)` and hence zero times: the fetch and parse stages
are never consulted (replacing their oracles cannot change the outcome),
the collected slot list is empty, and the payload handed to the backend
carries an empty events list. -/
theorem c10_empty_range (env : Env) (f : String → String × Bool)
    (p : String → Node)
    (hu : pyTruthyStr env.uuid = true) (hk : pyTruthyStr env.apiKey = true) :
    (mainRun env).sent = some [] ∧
    mainRun { env with fetch := f, parse := p } = mainRun env := by
  have hempty : ∀ e : Env, processDates e (saleStartOf e) (datesFor e.todayDay 0) =
      .done [] := by
    intro e
    simp [datesFor, processDates]
  constructor
  · rcases hput : env.put [] with _ | resp
    · simp [mainRun, runMain, hu, hk, hempty, hput]
    · rcases resp with ⟨ok, content⟩
      cases ok
      · simp [mainRun, runMain, hu, hk, hempty, hput]
      · simp [mainRun, runMain, hu, hk, hempty, hput]
  · simp [mainRun, runMain, hu, hk, hempty]

/-- Witness for C10: a concrete valid configuration publishes an empty
events list, and swapping in different fetch/parse oracles changes
nothing. -/
theorem c10_witness :
    (mainRun cEnvW).sent = some [] ∧
    mainRun { cEnvW with fetch := f0, parse := p0 } = mainRun cEnvW :=
  c10_empty_range cEnvW f0 p0 (by decide) (by decide)
